import Mathlib

/-!
# go-momo example programs: shallow embedding and verified properties

The repository's sources are two command-line programs,
`examples/basic.go` and `examples/sandbox_payment/main.go`.  Both drive the
`momomtn` client library, whose code is not part of the sources; every library
call is therefore answered by an environment (`BasicEnv`, `Env`) that the
theorems quantify over.  A run of a program is the chronological list of the
observable events it causes (library calls, log lines, sleeps) together with
the way the process ends.
-/

namespace Momo

/-- Modelled from the spec: the status enumeration of package `momomtn`
(`momomtn.Successful`, `momomtn.Failed`, `momomtn.Rejected`, ...), whose
declaration is not among the sources; the spec gives it as
`enum{Pending, Successful, Failed, Rejected, ...}`, the dots being kept as
`Other`. -/
inductive Status where
  | Pending
  | Successful
  | Failed
  | Rejected
  | Other (name : String)
  deriving DecidableEq, Repr

/-- The two API products whose status is polled in `sandbox_payment/main.go`:
`client.Collection` (first loop) and `client.Disbursement` (second loop). -/
inductive Product where
  | collection
  | disbursement
  deriving DecidableEq, Repr

/-- An argument handed to a `log.Printf` / `log.Fatalf` format string. -/
inductive Arg where
  | str (s : String)
  | int (n : Int)
  | err (e : String)
  | status (s : Status)
  | bytes (b : List UInt8)
  deriving DecidableEq, Repr

/-- The option struct passed to `RequestToPay` (`momomtn.RequestToPayOptions`)
and to `Transfer` (`momomtn.TransferOptions`); both have the same three fields
in the source. -/
structure PayOptions where
  IdempotencyKey : String
  PayerMessage : String
  PayeeNote : String
  deriving DecidableEq, Repr

/-- Observable events of a run, in the order the program causes them.
Amounts are the source's literals `5.00` and `2.50`, kept in hundredths. -/
inductive Event where
  | log (format : String) (args : List Arg)
  | fatal (format : String) (args : List Arg)
  | out (text : String)
  | sleep (nanos : Nat)
  | newConfig
  | createAPIUser
  | createAPIKey (apiUser : String)
  | getAccessToken (product : String)
  | generateIdempotencyKey (operation stamp : String)
  | requestToPay (phone : String) (hundredths : Nat) (opts : PayOptions)
  | transfer (phone : String) (hundredths : Nat) (opts : PayOptions)
  | getStatus (p : Product) (referenceID : String)
  | cancel
  deriving DecidableEq, Repr

/-- How the process ends: `main` returns, `log.Fatalf` exits with code 1, or a
run-time panic aborts it. -/
inductive Outcome where
  | returned
  | exited (code : Nat)
  | panicked (reason : String)
  deriving DecidableEq, Repr

/-- A finished run: everything that was observed, and how it ended. -/
structure Run where
  trace : List Event
  outcome : Outcome
  deriving DecidableEq, Repr

/-- The running program's view of the outside: the events so far and how many
status queries of each product the provider has answered. -/
structure World where
  trace : List Event
  collectionCalls : Nat
  disbursementCalls : Nat
  deriving DecidableEq, Repr

/-- The world before the first statement of `main`. -/
def World.init : World := ⟨[], 0, 0⟩

/-- Record one event. -/
def World.emit (w : World) (e : Event) : World :=
  ⟨w.trace ++ [e], w.collectionCalls, w.disbursementCalls⟩

/-- Number of status queries of product `p` answered so far. -/
def World.calls (w : World) : Product → Nat
  | .collection => w.collectionCalls
  | .disbursement => w.disbursementCalls

/-- `time.Second` as a `time.Duration` (nanoseconds). -/
def second : Nat := 1000000000

/-- The library and the provider behind it, as seen from
`sandbox_payment/main.go`.  A status query is answered from the reference id
it is given and from its position among the queries of that product, so a
"sequence of status-query results" is `fun n => getTransactionStatus id n`. -/
structure Env where
  newConfig : Option String
  now : Nat → String
  generateIdempotencyKey : String → String → String
  requestToPay : String → Nat → PayOptions → Except String String
  getTransactionStatus : String → Nat → Except String Status
  transfer : String → Nat → PayOptions → Except String String
  getTransferStatus : String → Nat → Except String Status

/-- The status query of product `p`: `client.Collection.GetTransactionStatus`
or `client.Disbursement.GetTransferStatus`. -/
def Env.status (env : Env) : Product → String → Nat → Except String Status
  | .collection => env.getTransactionStatus
  | .disbursement => env.getTransferStatus

/-- Issue one status query with handle `id`: the call is recorded, the
provider's next answer for that product is returned. -/
def World.queryStatus (w : World) (env : Env) (p : Product) (id : String) :
    Except String Status × World :=
  match p with
  | .collection =>
    (env.getTransactionStatus id w.collectionCalls,
      ⟨w.trace ++ [.getStatus .collection id], w.collectionCalls + 1, w.disbursementCalls⟩)
  | .disbursement =>
    (env.getTransferStatus id w.disbursementCalls,
      ⟨w.trace ++ [.getStatus .disbursement id], w.collectionCalls, w.disbursementCalls + 1⟩)

/-- The test `status.Status == momomtn.Successful || status.Status ==
momomtn.Failed || status.Status == momomtn.Rejected` of both loops. -/
def isFinal (s : Status) : Bool :=
  s == .Successful || s == .Failed || s == .Rejected

/-- Format of the log line written when a status query fails. -/
def errorFormat : Product → String
  | .collection => "Error checking status: %v"
  | .disbursement => "Error checking transfer status: %v"

/-- Format of the log line that reports a status that was read. -/
def statusFormat : Product → String
  | .collection => "Transaction status: %s"
  | .disbursement => "Transfer status: %s"

/-- Format of the log line written just before `break`. -/
def finalFormat : Product → String
  | .collection => "Final status reached: %s"
  | .disbursement => "Final transfer status reached: %s"

/-- The loop `for i := 0; i < maxPolls; i++ { ... }` of
`sandbox_payment/main.go` (lines 66-86 for `p = collection`, lines 109-129 for
`p = disbursement`; the two differ only in the query and the three formats).
The first numeric argument is the number of iterations the guard still admits,
`maxPolls - i`; the loop is entered with `maxPolls.toNat`, so `i` starts at 0
and the guard `i < maxPolls` fails exactly when that number is 0. -/
def pollLoop (env : Env) (p : Product) (id : String) (maxPolls : Int) (pollInterval : Nat) :
    Nat → World → World
  | 0, w => w
  | r + 1, w =>
    let i : Int := maxPolls - ((r + 1 : Nat) : Int)
    let w1 := w.emit (.log "Polling attempt %d/%d..." [.int (i + 1), .int maxPolls])
    match w1.queryStatus env p id with
    | (.error err, w2) =>
      let w3 := w2.emit (.log (errorFormat p) [.err err])
      let w4 := w3.emit (.sleep pollInterval)
      pollLoop env p id maxPolls pollInterval r w4
    | (.ok status, w2) =>
      let w3 := w2.emit (.log (statusFormat p) [.status status])
      if isFinal status then
        w3.emit (.log (finalFormat p) [.status status])
      else
        let w4 := w3.emit (.sleep pollInterval)
        pollLoop env p id maxPolls pollInterval r w4

/-- `log.Fatalf`: the line is written and the process exits with code 1
(deferred calls do not run). -/
def fatalf (w : World) (format : String) (args : List Arg) : Run :=
  ⟨w.trace ++ [.fatal format args], .exited 1⟩

/-- The phone number literal of `sandbox_payment/main.go` (line 37). -/
def phone : String := "46733123454"

/-- The `RequestToPayOptions` literal of lines 50-54; the idempotency key is
`GenerateIdempotencyKey("test_payment", time.Now().Format(...))`. -/
def payOptions (env : Env) : PayOptions :=
  ⟨env.generateIdempotencyKey "test_payment" (env.now 0), "Test payment",
    "Thank you for testing"⟩

/-- The `TransferOptions` literal of lines 96-100. -/
def transferOptions (env : Env) : PayOptions :=
  ⟨env.generateIdempotencyKey "test_disbursement" (env.now 1), "Test disbursement",
    "Funds received - test"⟩

/-- Lines 88-131 of `sandbox_payment/main.go`: the transfer, its polling loop
and the end of `main` (the deferred `cancel()` runs when `main` returns). -/
def disbursementPhase (maxPolls : Int) (pollInterval : Nat) (env : Env) (w : World) : Run :=
  let w := w.emit (.log "\nTesting disbursement..." [])
  let w := w.emit (.generateIdempotencyKey "test_disbursement" (env.now 1))
  let w := w.emit (.transfer phone 250 (transferOptions env))
  match env.transfer phone 250 (transferOptions env) with
  | .error err => fatalf w "Failed to initiate transfer: %v" [.err err]
  | .ok transferReferenceID =>
    let w := w.emit (.log "Transfer initiated with reference ID: %s" [.str transferReferenceID])
    let w := w.emit (.log "Polling for transfer status..." [])
    let w := pollLoop env .disbursement transferReferenceID maxPolls pollInterval maxPolls.toNat w
    let w := w.emit (.log "\nPayment flow test completed!" [])
    ⟨w.trace ++ [.cancel], .returned⟩

/-- The body of `main` in `sandbox_payment/main.go`, with the two local
constants `maxPolls` and `pollInterval` taken as arguments. -/
def paymentFlow (maxPolls : Int) (pollInterval : Nat) (env : Env) : Run :=
  let w := World.init.emit .newConfig
  match env.newConfig with
  | some err => fatalf w "Failed to create config: %v" [.err err]
  | none =>
    let w := w.emit (.generateIdempotencyKey "test_payment" (env.now 0))
    let w := w.emit (.log "Using idempotency key: %s" [.str (payOptions env).IdempotencyKey])
    let w := w.emit (.log "Initiating payment request..." [])
    let w := w.emit (.requestToPay phone 500 (payOptions env))
    match env.requestToPay phone 500 (payOptions env) with
    | .error err => fatalf w "Failed to initiate payment: %v" [.err err]
    | .ok referenceID =>
      let w := w.emit (.log "Payment request initiated with reference ID: %s" [.str referenceID])
      let w := w.emit (.log "Polling for transaction status..." [])
      let w := pollLoop env .collection referenceID maxPolls pollInterval maxPolls.toNat w
      disbursementPhase maxPolls pollInterval env w

/-- The program `sandbox_payment/main.go`: `maxPolls := 6`,
`pollInterval := 5 * time.Second`. -/
def SandboxPayment.main (env : Env) : Run :=
  paymentFlow 6 (5 * second) env

/-! ## `examples/basic.go` -/

/-- The library as seen from `basic.go`.  The access token is a Go string,
that is a sequence of bytes, because the program slices it. -/
structure BasicEnv where
  newConfig : Option String
  createAPIUser : Except String String
  createAPIKey : String → Except String String
  getAccessToken : String → Except String (List UInt8)

/-- The Go slice expression `s[:high]` on a string: the first `high` bytes,
or a run-time panic when `high` exceeds `len(s)`. -/
def sliceTo (s : List UInt8) (high : Nat) : Option (List UInt8) :=
  if high ≤ s.length then some (s.take high) else none

/-- The bytes of the string literal `"..."`. -/
def dots : List UInt8 := [46, 46, 46]

/-- The body of `main` in `basic.go`.  A panic runs the deferred `cancel()`
and then aborts the process. -/
def Basic.main (env : BasicEnv) : Run :=
  let w := World.init.emit .newConfig
  match env.newConfig with
  | some err => fatalf w "Failed to create config: %v" [.err err]
  | none =>
    let w := w.emit (.log "Testing authentication..." [])
    let w := w.emit .createAPIUser
    match env.createAPIUser with
    | .error err => fatalf w "Failed to create API user: %v" [.err err]
    | .ok apiUser =>
      let w := w.emit (.log "Created API user: %s" [.str apiUser])
      let w := w.emit (.createAPIKey apiUser)
      match env.createAPIKey apiUser with
      | .error err => fatalf w "Failed to create API key: %v" [.err err]
      | .ok apiKey =>
        let w := w.emit (.log "Created API key: %s" [.str apiKey])
        let w := w.emit (.getAccessToken "collection")
        match env.getAccessToken "collection" with
        | .error err => fatalf w "Failed to get access token: %v" [.err err]
        | .ok token =>
          match sliceTo token 10 with
          | none => ⟨w.trace ++ [.cancel], .panicked "slice bounds out of range"⟩
          | some head =>
            let w := w.emit (.log "Got access token: %s" [.bytes (head ++ dots)])
            let w := w.emit (.out "\nAuthentication successful!")
            let w := w.emit (.out "=========================")
            let w := w.emit (.out "\nBasic API connectivity test passed!")
            ⟨w.trace ++ [.cancel], .returned⟩

/-! ## Observations on traces -/

/-- Is the event a status query of product `p`? -/
def isQuery (p : Product) : Event → Bool
  | .getStatus q _ => q == p
  | _ => false

/-- Number of status queries of product `p` in a trace. -/
def queryCount (p : Product) (t : List Event) : Nat :=
  t.countP (isQuery p)

/-- The duration of a `time.Sleep` event. -/
def sleepOf : Event → Option Nat
  | .sleep d => some d
  | _ => none

/-- The sleeps of a trace, in order. -/
def sleeps (t : List Event) : List Nat :=
  t.filterMap sleepOf

/-- The status carried by a "status read" log line of product `p`. -/
def observedOf (p : Product) : Event → Option Status
  | .log f [.status s] => if f = statusFormat p then some s else none
  | _ => none

/-- The statuses the program observed (and logged) for product `p`, in order. -/
def observed (p : Product) (t : List Event) : List Status :=
  t.filterMap (observedOf p)

/-- The last status observed for product `p`, if any. -/
def lastObserved (p : Product) (t : List Event) : Option Status :=
  (observed p t).getLast?

/-- The error carried by an "error checking status" log line of product `p`. -/
def errorOf (p : Product) : Event → Option String
  | .log f [.err e] => if f = errorFormat p then some e else none
  | _ => none

/-- The errors logged by the polling loop of product `p`, in order. -/
def loggedErrors (p : Product) (t : List Event) : List String :=
  t.filterMap (errorOf p)

/-- Is the event a `log.Fatalf`? -/
def isFatal : Event → Bool
  | .fatal _ _ => true
  | _ => false

/-- Is the event a call of `RequestToPay`? -/
def isRequestToPay : Event → Bool
  | .requestToPay _ _ _ => true
  | _ => false

/-- Is the event a call of `Transfer`? -/
def isTransfer : Event → Bool
  | .transfer _ _ _ => true
  | _ => false

/-- Is the event one of the three credential calls of `basic.go`? -/
def isAuthCall : Event → Bool
  | .createAPIUser => true
  | .createAPIKey _ => true
  | .getAccessToken _ => true
  | _ => false

/-- Is the event the log line of `basic.go` that shows the token preview? -/
def isPreviewLog : Event → Bool
  | .log f _ => f == "Got access token: %s"
  | _ => false

/-- Is the event one of the three credential calls of `basic.go` or its
"Authentication successful!" line? -/
def isMilestone : Event → Bool
  | .createAPIUser => true
  | .createAPIKey _ => true
  | .getAccessToken _ => true
  | .out text => text == "\nAuthentication successful!"
  | _ => false

/-- Does a query result carry one of the three final statuses? -/
def finalAnswer : Except String Status → Bool
  | .ok s => isFinal s
  | .error _ => false

/-- The status of a successful query result. -/
def okOf : Except String Status → Option Status
  | .ok s => some s
  | .error _ => none

/-- The error of a failed query result. -/
def failureOf : Except String Status → Option String
  | .ok _ => none
  | .error e => some e

/-- The log line that opens iteration `i` of a polling loop. -/
def attemptLog (maxPolls : Int) (i : Int) : Event :=
  .log "Polling attempt %d/%d..." [.int (i + 1), .int maxPolls]

/-- The world after `n` more answered status queries of product `p` during
which the events `evs` were observed. -/
def World.advance (w : World) (p : Product) (n : Nat) (evs : List Event) : World :=
  match p with
  | .collection => ⟨w.trace ++ evs, w.collectionCalls + n, w.disbursementCalls⟩
  | .disbursement => ⟨w.trace ++ evs, w.collectionCalls, w.disbursementCalls + n⟩

/-- What one loop iteration leaves in the trace after its query was answered
with `res`. -/
def answerEvents (p : Product) (pollInterval : Nat) : Except String Status → List Event
  | .error e => [.log (errorFormat p) [.err e], .sleep pollInterval]
  | .ok s =>
    if isFinal s then [.log (statusFormat p) [.status s], .log (finalFormat p) [.status s]]
    else [.log (statusFormat p) [.status s], .sleep pollInterval]

/-- Number of status queries a polling loop issues when `r` iterations are
still admitted and the provider has answered `c` queries before. -/
def loopCalls (env : Env) (p : Product) (id : String) : Nat → Nat → Nat
  | 0, _ => 0
  | r + 1, c =>
    if finalAnswer (env.status p id c) then 1 else loopCalls env p id r (c + 1) + 1

/-- The events a polling loop appends to the trace when `r` iterations are
still admitted and the provider has answered `c` queries before. -/
def loopEvents (env : Env) (p : Product) (id : String) (maxPolls : Int) (pollInterval : Nat) :
    Nat → Nat → List Event
  | 0, _ => []
  | r + 1, c =>
    [attemptLog maxPolls (maxPolls - ((r + 1 : Nat) : Int)), .getStatus p id] ++
      answerEvents p pollInterval (env.status p id c) ++
      if finalAnswer (env.status p id c) then []
      else loopEvents env p id maxPolls pollInterval r (c + 1)

/-- The sleep, if any, that follows an answer. -/
def napOf (pollInterval : Nat) (res : Except String Status) : Option Nat :=
  if finalAnswer res then none else some pollInterval

/-- The events a polling loop of product `p` with handle `id` can cause: log
lines, sleeps and status queries of `p` with `id`. -/
def fromLoop (p : Product) (id : String) : Event → Bool
  | .log _ _ => true
  | .sleep _ => true
  | .getStatus q x => q == p && x == id
  | _ => false

/-- The events of `sandbox_payment/main.go` up to the first polling loop, when
`RequestToPay` returned `referenceID`. -/
def prologue (env : Env) (referenceID : String) : List Event :=
  [.newConfig,
    .generateIdempotencyKey "test_payment" (env.now 0),
    .log "Using idempotency key: %s" [.str (payOptions env).IdempotencyKey],
    .log "Initiating payment request..." [],
    .requestToPay phone 500 (payOptions env),
    .log "Payment request initiated with reference ID: %s" [.str referenceID],
    .log "Polling for transaction status..." []]

/-- The events between the first polling loop and the answer to `Transfer`. -/
def interlude (env : Env) : List Event :=
  [.log "\nTesting disbursement..." [],
    .generateIdempotencyKey "test_disbursement" (env.now 1),
    .transfer phone 250 (transferOptions env)]

/-- The events between a successful `Transfer` and the second polling loop. -/
def transferLogs (transferReferenceID : String) : List Event :=
  [.log "Transfer initiated with reference ID: %s" [.str transferReferenceID],
    .log "Polling for transfer status..." []]

/-! ## Concrete environments -/

/-- A provider in which configuration and both submissions succeed and both
status queries answer from the list `answers` (`Pending` once it is used up). -/
def scripted (answers : List (Except String Status)) : Env where
  newConfig := none
  now := fun _ => "20240102030405"
  generateIdempotencyKey := fun operation stamp => operation ++ "_" ++ stamp
  requestToPay := fun _ _ _ => .ok "ref-collection"
  getTransactionStatus := fun _ n => answers.getD n (.ok .Pending)
  transfer := fun _ _ _ => .ok "ref-transfer"
  getTransferStatus := fun _ n => answers.getD n (.ok .Pending)

/-- A provider whose configuration step fails. -/
def misconfigured : Env where
  newConfig := some "subscription key is required"
  now := fun _ => "20240102030405"
  generateIdempotencyKey := fun operation stamp => operation ++ "_" ++ stamp
  requestToPay := fun _ _ _ => .ok "ref-collection"
  getTransactionStatus := fun _ _ => .ok .Pending
  transfer := fun _ _ _ => .ok "ref-transfer"
  getTransferStatus := fun _ _ => .ok .Pending

/-- A library for `basic.go` in which every step succeeds and the access token
is `token`. -/
def basicWith (token : List UInt8) : BasicEnv where
  newConfig := none
  createAPIUser := .ok "user-1"
  createAPIKey := fun _ => .ok "key-1"
  getAccessToken := fun _ => .ok token

/-- A provider whose context is cancelled after the first status answer
(`Pending`): every later status query fails with the context's error. -/
def cancelledAfterOne : Env :=
  scripted [.ok .Pending, .error "context canceled", .error "context canceled",
    .error "context canceled", .error "context canceled", .error "context canceled"]

/-- A library for `basic.go` whose `CreateAPIUser` is rejected. -/
def userRejected : BasicEnv where
  newConfig := none
  createAPIUser := .error "subscription key rejected"
  createAPIKey := fun _ => .ok "key-1"
  getAccessToken := fun _ => .ok [65, 66, 67, 68, 69, 70, 71, 72, 73, 74, 75, 76]

/-! ## Basic facts -/

@[simp] theorem World.emit_trace (w : World) (e : Event) : (w.emit e).trace = w.trace ++ [e] := rfl

@[simp] theorem World.emit_calls (w : World) (e : Event) (p : Product) :
    (w.emit e).calls p = w.calls p := by
  cases p <;> rfl

@[simp] theorem World.advance_trace (w : World) (p : Product) (n : Nat) (evs : List Event) :
    (w.advance p n evs).trace = w.trace ++ evs := by
  cases p <;> rfl

@[simp] theorem World.advance_calls_self (w : World) (p : Product) (n : Nat) (evs : List Event) :
    (w.advance p n evs).calls p = w.calls p + n := by
  cases p <;> rfl

theorem World.advance_advance (w : World) (p : Product) (m n : Nat) (e1 e2 : List Event) :
    (w.advance p m e1).advance p n e2 = w.advance p (m + n) (e1 ++ e2) := by
  cases p <;> simp [World.advance, Nat.add_assoc]

theorem World.advance_zero_nil (w : World) (p : Product) : w.advance p 0 [] = w := by
  cases p <;> simp [World.advance]

/-- The loop computes exactly the events of `loopEvents` and consumes exactly
`loopCalls` answers. -/
theorem pollLoop_eq (env : Env) (p : Product) (id : String) (maxPolls : Int) (pollInterval : Nat) :
    ∀ (r : Nat) (w : World),
      pollLoop env p id maxPolls pollInterval r w =
        w.advance p (loopCalls env p id r (w.calls p))
          (loopEvents env p id maxPolls pollInterval r (w.calls p)) := by
  intro r
  induction r with
  | zero => intro w; simp [pollLoop, loopCalls, loopEvents, World.advance_zero_nil]
  | succ r ih =>
    intro w
    cases p <;>
      simp only [pollLoop, loopCalls, loopEvents, World.queryStatus, World.emit, Env.status,
        World.calls] <;>
      split <;> rename_i heq <;>
      simp only [Prod.mk.injEq] at heq <;>
      obtain ⟨h1, h2⟩ := heq <;>
      subst h2 <;>
      simp [h1.symm, finalAnswer, answerEvents, ih, World.advance, World.calls, Env.status,
        attemptLog] <;>
      split <;> simp_all [Nat.add_comm, Nat.add_assoc, Nat.add_left_comm]


/-! ## The events of a polling loop -/


@[simp] theorem queryCount_nil (p : Product) : queryCount p [] = 0 := rfl

@[simp] theorem queryCount_append (p : Product) (a b : List Event) :
    queryCount p (a ++ b) = queryCount p a + queryCount p b := by
  simp [queryCount]

@[simp] theorem queryCount_cons (p : Product) (e : Event) (t : List Event) :
    queryCount p (e :: t) = queryCount p t + if isQuery p e then 1 else 0 := by
  simp [queryCount, List.countP_cons]

@[simp] theorem isQuery_getStatus (p : Product) (id : String) :
    isQuery p (.getStatus p id) = true := by
  simp [isQuery]

@[simp] theorem isQuery_attemptLog (p : Product) (m i : Int) :
    isQuery p (attemptLog m i) = false := rfl

@[simp] theorem queryCount_answerEvents (p : Product) (pollInterval : Nat)
    (res : Except String Status) : queryCount p (answerEvents p pollInterval res) = 0 := by
  cases res with
  | error e => simp [answerEvents, isQuery]
  | ok s => by_cases h : isFinal s = true <;> simp [answerEvents, isQuery, h]

theorem queryCount_loopEvents (env : Env) (p : Product) (id : String) (maxPolls : Int)
    (pollInterval : Nat) : ∀ (r c : Nat),
      queryCount p (loopEvents env p id maxPolls pollInterval r c) = loopCalls env p id r c := by
  intro r
  induction r with
  | zero => intro c; simp [loopEvents, loopCalls]
  | succ r ih =>
    intro c
    by_cases h : finalAnswer (env.status p id c) = true <;>
      simp [loopEvents, loopCalls, h, ih]


theorem loopCalls_of_no_final (env : Env) (p : Product) (id : String) : ∀ (r c : Nat),
    (∀ j, j < r → finalAnswer (env.status p id (c + j)) = false) →
      loopCalls env p id r c = r := by
  intro r
  induction r with
  | zero => intro c _; simp [loopCalls]
  | succ r ih =>
    intro c h
    have h0 : finalAnswer (env.status p id c) = false := by simpa using h 0 (Nat.succ_pos r)
    have hr : loopCalls env p id r (c + 1) = r :=
      ih (c + 1) (fun j hj => by
        have := h (j + 1) (Nat.succ_lt_succ hj)
        rwa [show c + (j + 1) = c + 1 + j by omega] at this)
    simp [loopCalls, h0, hr]

theorem loopCalls_of_first_final (env : Env) (p : Product) (id : String) : ∀ (n r c : Nat),
    n < r →
    (∀ j, j < n → finalAnswer (env.status p id (c + j)) = false) →
    finalAnswer (env.status p id (c + n)) = true →
      loopCalls env p id r c = n + 1 := by
  intro n
  induction n with
  | zero =>
    intro r c hr _ hfin
    obtain ⟨r, rfl⟩ : ∃ m, r = m + 1 := ⟨r - 1, by omega⟩
    simp at hfin
    simp [loopCalls, hfin]
  | succ n ih =>
    intro r c hr hbefore hfin
    obtain ⟨r, rfl⟩ : ∃ m, r = m + 1 := ⟨r - 1, by omega⟩
    have h0 : finalAnswer (env.status p id c) = false := by simpa using hbefore 0 (Nat.succ_pos n)
    have hrec : loopCalls env p id r (c + 1) = n + 1 :=
      ih r (c + 1) (by omega)
        (fun j hj => by
          have := hbefore (j + 1) (Nat.succ_lt_succ hj)
          rwa [show c + (j + 1) = c + 1 + j by omega] at this)
        (by rwa [show c + (n + 1) = c + 1 + n by omega] at hfin)
    simp [loopCalls, h0, hrec]

theorem range_filterMap_shift {α : Type} (f : Nat → Option α) (n : Nat) :
    (List.range (n + 1)).filterMap f =
      (f 0).toList ++ (List.range n).filterMap (fun j => f (j + 1)) := by
  rw [List.range_succ_eq_map, List.filterMap_cons]
  cases h : f 0 <;> simp [List.filterMap_map, Function.comp_def]

/-- Any projection of the loop's events that reads one value off each answer
is the same projection of the answers the loop consumed. -/
theorem filterMap_loopEvents {α : Type} (env : Env) (p : Product) (id : String) (maxPolls : Int)
    (pollInterval : Nat) (g : Event → Option α) (f : Except String Status → Option α)
    (hlog : ∀ m i, g (attemptLog m i) = none) (hq : g (.getStatus p id) = none)
    (hans : ∀ res, (answerEvents p pollInterval res).filterMap g = (f res).toList) :
    ∀ (r c : Nat),
      (loopEvents env p id maxPolls pollInterval r c).filterMap g =
        (List.range (loopCalls env p id r c)).filterMap (fun j => f (env.status p id (c + j))) := by
  intro r
  induction r with
  | zero => intro c; simp [loopEvents, loopCalls]
  | succ r ih =>
    intro c
    by_cases h : finalAnswer (env.status p id c) = true
    · have h1 : loopCalls env p id (r + 1) c = 0 + 1 := by simp [loopCalls, h]
      rw [h1, range_filterMap_shift]
      simp [loopEvents, h, List.filterMap_append, hlog, hq, hans]
    · have h1 : loopCalls env p id (r + 1) c = loopCalls env p id r (c + 1) + 1 := by
        simp [loopCalls, h]
      rw [h1, range_filterMap_shift]
      simp [loopEvents, h, List.filterMap_append, hlog, hq, hans, ih (c + 1), Nat.add_assoc,
        Nat.add_comm 1]

theorem statusFormat_ne_finalFormat (p : Product) : finalFormat p ≠ statusFormat p := by
  cases p <;> decide

theorem loggedErrors_loopEvents (env : Env) (p : Product) (id : String) (maxPolls : Int)
    (pollInterval : Nat) (r c : Nat) :
    loggedErrors p (loopEvents env p id maxPolls pollInterval r c) =
      (List.range (loopCalls env p id r c)).filterMap
        (fun j => failureOf (env.status p id (c + j))) := by
  apply filterMap_loopEvents env p id maxPolls pollInterval (errorOf p) failureOf
  · intro m i; rfl
  · rfl
  · intro res
    cases res with
    | error e => simp [answerEvents, errorOf, failureOf]
    | ok s => by_cases h : isFinal s = true <;> simp [answerEvents, errorOf, failureOf, h]

theorem observed_loopEvents (env : Env) (p : Product) (id : String) (maxPolls : Int)
    (pollInterval : Nat) (r c : Nat) :
    observed p (loopEvents env p id maxPolls pollInterval r c) =
      (List.range (loopCalls env p id r c)).filterMap
        (fun j => okOf (env.status p id (c + j))) := by
  apply filterMap_loopEvents env p id maxPolls pollInterval (observedOf p) okOf
  · intro m i; rfl
  · rfl
  · intro res
    cases res with
    | error e => simp [answerEvents, observedOf, okOf]
    | ok s =>
      by_cases h : isFinal s = true <;>
        simp [answerEvents, observedOf, okOf, h, statusFormat_ne_finalFormat]

theorem sleeps_loopEvents (env : Env) (p : Product) (id : String) (maxPolls : Int)
    (pollInterval : Nat) (r c : Nat) :
    sleeps (loopEvents env p id maxPolls pollInterval r c) =
      (List.range (loopCalls env p id r c)).filterMap
        (fun j => napOf pollInterval (env.status p id (c + j))) := by
  apply filterMap_loopEvents env p id maxPolls pollInterval sleepOf (napOf pollInterval)
  · intro m i; rfl
  · rfl
  · intro res
    cases res with
    | error e => simp [answerEvents, sleepOf, napOf, finalAnswer]
    | ok s =>
      by_cases h : isFinal s = true <;> simp [answerEvents, sleepOf, napOf, finalAnswer, h]

theorem fromLoop_answerEvents (p : Product) (id : String) (pollInterval : Nat)
    (res : Except String Status) : ∀ e ∈ answerEvents p pollInterval res, fromLoop p id e = true := by
  intro e he
  cases res with
  | error err =>
    simp [answerEvents] at he
    rcases he with rfl | rfl <;> rfl
  | ok s =>
    by_cases h : isFinal s = true <;> simp [answerEvents, h] at he <;>
      rcases he with rfl | rfl <;> rfl

theorem fromLoop_loopEvents (env : Env) (p : Product) (id : String) (maxPolls : Int)
    (pollInterval : Nat) : ∀ (r c : Nat),
      ∀ e ∈ loopEvents env p id maxPolls pollInterval r c, fromLoop p id e = true := by
  intro r
  induction r with
  | zero => intro c e he; simp [loopEvents] at he
  | succ r ih =>
    intro c e he
    simp only [loopEvents, List.mem_append, List.mem_cons, List.mem_singleton,
      List.not_mem_nil, or_false] at he
    rcases he with ((rfl | rfl) | he) | he
    · rfl
    · simp [fromLoop]
    · exact fromLoop_answerEvents p id pollInterval _ e he
    · split at he
      · simp at he
      · exact ih (c + 1) e he

/-- While the answers are not final the loop runs on: after `n` such answers
it is the loop with `n` fewer iterations left. -/
theorem loopEvents_split (env : Env) (p : Product) (id : String) (maxPolls : Int)
    (pollInterval : Nat) : ∀ (n r c : Nat),
      (∀ j, j < n → finalAnswer (env.status p id (c + j)) = false) →
      ∃ pre, loopEvents env p id maxPolls pollInterval (n + r) c =
          pre ++ loopEvents env p id maxPolls pollInterval r (c + n) ∧
        queryCount p pre = n ∧
        loopCalls env p id (n + r) c = n + loopCalls env p id r (c + n) := by
  intro n
  induction n with
  | zero => intro r c _; exact ⟨[], by simp, by simp, by simp⟩
  | succ n ih =>
    intro r c h
    have h0 : finalAnswer (env.status p id c) = false := by simpa using h 0 (Nat.succ_pos n)
    obtain ⟨pre, hpre, hcount, hcalls⟩ := ih r (c + 1) (fun j hj => by
      have := h (j + 1) (Nat.succ_lt_succ hj)
      rwa [show c + (j + 1) = c + 1 + j by omega] at this)
    have hshape : n + 1 + r = (n + r) + 1 := by omega
    have hidx : c + 1 + n = c + (n + 1) := by omega
    refine ⟨[attemptLog maxPolls (maxPolls - ((n + r + 1 : Nat) : Int)), .getStatus p id] ++
      answerEvents p pollInterval (env.status p id c) ++ pre, ?_, ?_, ?_⟩
    · rw [hshape]
      simp [loopEvents, h0, hpre, hidx]
    · simp [hcount]
    · rw [hshape]
      simp [loopCalls, h0, hcalls, hidx]
      omega

@[simp] theorem isQuery_log (p : Product) (f : String) (args : List Arg) :
    isQuery p (.log f args) = false := rfl

@[simp] theorem isQuery_sleep (p : Product) (d : Nat) : isQuery p (.sleep d) = false := rfl

theorem observed_append (p : Product) (a b : List Event) :
    observed p (a ++ b) = observed p a ++ observed p b := by
  simp [observed]

theorem toNat_split (maxPolls : Int) (n : Nat) (h : (n : Int) < maxPolls) :
    ∃ m, maxPolls.toNat = n + (m + 1) := by
  refine ⟨maxPolls.toNat - n - 1, ?_⟩
  omega

/-! ## Claims about the polling loops -/

/-- C1: in either polling loop, if attempt `k ≤ maxPolls` is the first whose
query succeeds with a final status `s` (Successful, Failed or Rejected), then
the loop issues exactly `k` status queries: its trace is the old trace, events
holding `k - 1` queries, then the `k`-th query, the log of `s` and the
"final status reached" log of `s`, and nothing after; `s` is the last status
observed. -/
theorem pollLoop_stops_at_first_final (env : Env) (p : Product) (id : String) (maxPolls : Int)
    (pollInterval : Nat) (w : World) (k : Nat) (s : Status)
    (hk : 1 ≤ k) (hle : (k : Int) ≤ maxPolls)
    (hbefore : ∀ j, j + 1 < k → finalAnswer (env.status p id (w.calls p + j)) = false)
    (hat : env.status p id (w.calls p + (k - 1)) = .ok s) (hs : isFinal s = true) :
    ∃ pre,
      (pollLoop env p id maxPolls pollInterval maxPolls.toNat w).trace =
        w.trace ++ pre ++
          [.getStatus p id, .log (statusFormat p) [.status s], .log (finalFormat p) [.status s]] ∧
      queryCount p pre = k - 1 ∧
      queryCount p (pollLoop env p id maxPolls pollInterval maxPolls.toNat w).trace =
        queryCount p w.trace + k ∧
      (pollLoop env p id maxPolls pollInterval maxPolls.toNat w).calls p = w.calls p + k ∧
      lastObserved p (pollLoop env p id maxPolls pollInterval maxPolls.toNat w).trace = some s := by
  obtain ⟨n, rfl⟩ : ∃ n, k = n + 1 := ⟨k - 1, by omega⟩
  obtain ⟨m, hm⟩ := toNat_split maxPolls n (by push_cast at hle; omega)
  have hfin : finalAnswer (env.status p id (w.calls p + n)) = true := by
    simp at hat
    simp [hat, finalAnswer, hs]
  obtain ⟨pre, hpre, hcount, hcalls⟩ := loopEvents_split env p id maxPolls pollInterval n (m + 1)
    (w.calls p) (fun j hj => hbefore j (by omega))
  have hlast : loopEvents env p id maxPolls pollInterval (m + 1) (w.calls p + n) =
      [attemptLog maxPolls (maxPolls - ((m + 1 : Nat) : Int)), .getStatus p id,
        .log (statusFormat p) [.status s], .log (finalFormat p) [.status s]] := by
    simp at hat
    have hfin2 : finalAnswer (Except.ok s) = true := by simp [finalAnswer, hs]
    simp [loopEvents, hat, hfin2, answerEvents, hs]
  have hc1 : loopCalls env p id (m + 1) (w.calls p + n) = 1 := by
    simp [loopCalls, hfin]
  have htrace : (pollLoop env p id maxPolls pollInterval maxPolls.toNat w).trace =
      w.trace ++ (pre ++ [attemptLog maxPolls (maxPolls - ((m + 1 : Nat) : Int))]) ++
        [.getStatus p id, .log (statusFormat p) [.status s],
          .log (finalFormat p) [.status s]] := by
    rw [pollLoop_eq, hm, World.advance_trace, hpre, hlast]
    simp
  refine ⟨pre ++ [attemptLog maxPolls (maxPolls - ((m + 1 : Nat) : Int))], htrace, ?_, ?_, ?_, ?_⟩
  · simp [hcount]
  · rw [htrace]
    simp [hcount, Nat.add_assoc]
  · rw [pollLoop_eq, hm, World.advance_calls_self, hcalls, hc1]
  · rw [htrace]
    simp [lastObserved, observed_append, observed, observedOf, statusFormat_ne_finalFormat]

/-- C1, the spec's example: with `maxPolls = 3` and the answers
`[Pending, Pending, Successful]` the collection loop ends on `Successful`
after exactly 3 queries. -/
theorem pollLoop_stops_at_first_final_witness :
    queryCount .collection
        (pollLoop (scripted [.ok .Pending, .ok .Pending, .ok .Successful]) .collection
          "ref-collection" 3 (5 * second) 3 World.init).trace = 3 ∧
      lastObserved .collection
        (pollLoop (scripted [.ok .Pending, .ok .Pending, .ok .Successful]) .collection
          "ref-collection" 3 (5 * second) 3 World.init).trace = some .Successful := by
  obtain ⟨_, _, _, h3, _, h5⟩ :=
    pollLoop_stops_at_first_final (scripted [.ok .Pending, .ok .Pending, .ok .Successful])
      .collection "ref-collection" 3 (5 * second) World.init 3 .Successful (by decide) (by decide)
      (fun j hj => match j, hj with
        | 0, _ => rfl
        | 1, _ => rfl
        | n + 2, h => absurd h (by omega))
      rfl rfl
  exact ⟨by simpa [World.init] using h3, h5⟩

theorem isFatal_of_fromLoop (p : Product) (id : String) (e : Event)
    (h : fromLoop p id e = true) : isFatal e = false := by
  cases e <;> simp_all [fromLoop, isFatal]

theorem okOf_not_final (res : Except String Status) (s : Status)
    (h : finalAnswer res = false) (hs : okOf res = some s) : isFinal s = false := by
  cases res with
  | error e => simp [okOf] at hs
  | ok t =>
    simp only [okOf, Option.some.injEq] at hs
    subst hs
    simpa [finalAnswer] using h

/-- What a loop that is never answered with a final status leaves behind. -/
theorem loop_exhausted (env : Env) (p : Product) (id : String) (maxPolls : Int)
    (pollInterval : Nat) (w : World)
    (hnone : ∀ j, j < maxPolls.toNat →
      finalAnswer (env.status p id (w.calls p + j)) = false) :
    (pollLoop env p id maxPolls pollInterval maxPolls.toNat w).trace =
        w.trace ++ loopEvents env p id maxPolls pollInterval maxPolls.toNat (w.calls p) ∧
      loopCalls env p id maxPolls.toNat (w.calls p) = maxPolls.toNat := by
  refine ⟨by rw [pollLoop_eq, World.advance_trace], ?_⟩
  exact loopCalls_of_no_final env p id maxPolls.toNat (w.calls p) hnone


/-! ## The whole run of `sandbox_payment/main.go` -/

theorem paymentFlow_config_error (maxPolls : Int) (pollInterval : Nat) (env : Env) (e : String)
    (h : env.newConfig = some e) :
    paymentFlow maxPolls pollInterval env =
      ⟨[.newConfig, .fatal "Failed to create config: %v" [.err e]], .exited 1⟩ := by
  simp [paymentFlow, h, fatalf, World.init, World.emit]

theorem paymentFlow_submit_error (maxPolls : Int) (pollInterval : Nat) (env : Env) (e : String)
    (hc : env.newConfig = none) (h : env.requestToPay phone 500 (payOptions env) = .error e) :
    paymentFlow maxPolls pollInterval env =
      ⟨[.newConfig,
          .generateIdempotencyKey "test_payment" (env.now 0),
          .log "Using idempotency key: %s" [.str (payOptions env).IdempotencyKey],
          .log "Initiating payment request..." [],
          .requestToPay phone 500 (payOptions env),
          .fatal "Failed to initiate payment: %v" [.err e]], .exited 1⟩ := by
  simp [paymentFlow, hc, h, fatalf, World.init, World.emit]

theorem paymentFlow_transfer_error (maxPolls : Int) (pollInterval : Nat) (env : Env)
    (rid e : String) (hc : env.newConfig = none)
    (hr : env.requestToPay phone 500 (payOptions env) = .ok rid)
    (ht : env.transfer phone 250 (transferOptions env) = .error e) :
    paymentFlow maxPolls pollInterval env =
      ⟨prologue env rid ++
          loopEvents env .collection rid maxPolls pollInterval maxPolls.toNat 0 ++
          interlude env ++ [.fatal "Failed to initiate transfer: %v" [.err e]], .exited 1⟩ := by
  simp [paymentFlow, disbursementPhase, hc, hr, ht, fatalf, World.init, World.emit, pollLoop_eq,
    World.advance, World.calls, prologue, interlude]

theorem paymentFlow_completed (maxPolls : Int) (pollInterval : Nat) (env : Env)
    (rid tid : String) (hc : env.newConfig = none)
    (hr : env.requestToPay phone 500 (payOptions env) = .ok rid)
    (ht : env.transfer phone 250 (transferOptions env) = .ok tid) :
    paymentFlow maxPolls pollInterval env =
      ⟨prologue env rid ++
          loopEvents env .collection rid maxPolls pollInterval maxPolls.toNat 0 ++
          interlude env ++ transferLogs tid ++
          loopEvents env .disbursement tid maxPolls pollInterval maxPolls.toNat 0 ++
          [.log "\nPayment flow test completed!" [], .cancel], .returned⟩ := by
  simp [paymentFlow, disbursementPhase, hc, hr, ht, World.init, World.emit, pollLoop_eq,
    World.advance, World.calls, prologue, interlude, transferLogs]

/-- C2: for `maxPolls ≥ 0`, a polling loop none of whose first `maxPolls`
queries succeeds with a final status issues exactly `maxPolls` queries, causes
no `log.Fatalf` (its events are log lines, sleeps and status queries only), and
the statuses it observed are exactly those of the successful queries, in
order, none of them final; so the last observed status is the non-final status
of the last successful query.  In the program, such a collection loop is
followed by the disbursement phase (the `Transfer` call), and such a transfer
loop by the normal return of `main`. -/
theorem pollLoop_exhausts_without_final (env : Env) (maxPolls : Int) (pollInterval : Nat)
    (h0 : 0 ≤ maxPolls) :
    (∀ (p : Product) (id : String) (w : World),
      (∀ j : Nat, (j : Int) < maxPolls →
        finalAnswer (env.status p id (w.calls p + j)) = false) →
      ∃ evs,
        (pollLoop env p id maxPolls pollInterval maxPolls.toNat w).trace = w.trace ++ evs ∧
        (queryCount p evs : Int) = maxPolls ∧
        (∀ e ∈ evs, fromLoop p id e = true ∧ isFatal e = false) ∧
        observed p evs =
          (List.range maxPolls.toNat).filterMap
            (fun j => okOf (env.status p id (w.calls p + j))) ∧
        lastObserved p evs =
          ((List.range maxPolls.toNat).filterMap
            (fun j => okOf (env.status p id (w.calls p + j)))).getLast? ∧
        (∀ s ∈ observed p evs, isFinal s = false)) ∧
    (∀ rid : String, env.newConfig = none →
      env.requestToPay phone 500 (payOptions env) = .ok rid →
      (∀ j : Nat, (j : Int) < maxPolls →
        finalAnswer (env.getTransactionStatus rid j) = false) →
      ∃ evs rest,
        (paymentFlow maxPolls pollInterval env).trace =
          prologue env rid ++ evs ++ interlude env ++ rest ∧
        (queryCount .collection evs : Int) = maxPolls) ∧
    (∀ rid tid : String, env.newConfig = none →
      env.requestToPay phone 500 (payOptions env) = .ok rid →
      env.transfer phone 250 (transferOptions env) = .ok tid →
      (∀ j : Nat, (j : Int) < maxPolls →
        finalAnswer (env.getTransferStatus tid j) = false) →
      ∃ before evs,
        (paymentFlow maxPolls pollInterval env).trace =
          before ++ evs ++ [.log "\nPayment flow test completed!" [], .cancel] ∧
        (queryCount .disbursement evs : Int) = maxPolls ∧
        (paymentFlow maxPolls pollInterval env).outcome = .returned) := by
  refine ⟨?_, ?_, ?_⟩
  · intro p id w hnone
    have hnone2 : ∀ j, j < maxPolls.toNat →
        finalAnswer (env.status p id (w.calls p + j)) = false :=
      fun j hj => hnone j (by omega)
    obtain ⟨htrace, hcalls⟩ := loop_exhausted env p id maxPolls pollInterval w hnone2
    have hobs := observed_loopEvents env p id maxPolls pollInterval maxPolls.toNat (w.calls p)
    rw [hcalls] at hobs
    refine ⟨loopEvents env p id maxPolls pollInterval maxPolls.toNat (w.calls p), htrace, ?_, ?_,
      hobs, ?_, ?_⟩
    · rw [queryCount_loopEvents, hcalls]
      omega
    · intro e he
      have := fromLoop_loopEvents env p id maxPolls pollInterval _ _ e he
      exact ⟨this, isFatal_of_fromLoop p id e this⟩
    · rw [lastObserved, hobs]
    · intro s hs
      rw [hobs, List.mem_filterMap] at hs
      obtain ⟨j, hj, hjs⟩ := hs
      exact okOf_not_final _ s (hnone2 j (List.mem_range.mp hj)) hjs
  · intro rid hc hr hnone
    have hcalls : loopCalls env .collection rid maxPolls.toNat 0 = maxPolls.toNat :=
      loopCalls_of_no_final env .collection rid maxPolls.toNat 0
        (fun j hj => by simpa [Env.status] using hnone j (by omega))
    have hq : (queryCount .collection
        (loopEvents env .collection rid maxPolls pollInterval maxPolls.toNat 0) : Int) =
        maxPolls := by
      rw [queryCount_loopEvents, hcalls]
      omega
    cases ht : env.transfer phone 250 (transferOptions env) with
    | error e =>
      exact ⟨_, _, by rw [paymentFlow_transfer_error maxPolls pollInterval env rid e hc hr ht], hq⟩
    | ok tid =>
      refine ⟨_, transferLogs tid ++
        loopEvents env .disbursement tid maxPolls pollInterval maxPolls.toNat 0 ++
        [.log "\nPayment flow test completed!" [], .cancel], ?_, hq⟩
      rw [paymentFlow_completed maxPolls pollInterval env rid tid hc hr ht]
      simp
  · intro rid tid hc hr ht hnone
    have hcalls : loopCalls env .disbursement tid maxPolls.toNat 0 = maxPolls.toNat :=
      loopCalls_of_no_final env .disbursement tid maxPolls.toNat 0
        (fun j hj => by simpa [Env.status] using hnone j (by omega))
    refine ⟨prologue env rid ++
      loopEvents env .collection rid maxPolls pollInterval maxPolls.toNat 0 ++
      interlude env ++ transferLogs tid,
      loopEvents env .disbursement tid maxPolls pollInterval maxPolls.toNat 0, ?_, ?_, ?_⟩
    · rw [paymentFlow_completed maxPolls pollInterval env rid tid hc hr ht]
    · rw [queryCount_loopEvents, hcalls]
      omega
    · rw [paymentFlow_completed maxPolls pollInterval env rid tid hc hr ht]

/-- C2, the spec's example: with `maxPolls = 2` and the answers
`[Pending, Pending]` the collection loop ends after 2 queries with `Pending`
as the last observed status, and the run goes on to the `Transfer` call. -/
theorem pollLoop_exhausts_without_final_witness :
    queryCount .collection
        (pollLoop (scripted [.ok .Pending, .ok .Pending]) .collection "ref-collection" 2
          (5 * second) 2 World.init).trace = 2 ∧
      lastObserved .collection
        (pollLoop (scripted [.ok .Pending, .ok .Pending]) .collection "ref-collection" 2
          (5 * second) 2 World.init).trace = some .Pending ∧
      Event.transfer phone 250 (transferOptions (scripted [.ok .Pending, .ok .Pending])) ∈
        (paymentFlow 2 (5 * second) (scripted [.ok .Pending, .ok .Pending])).trace := by
  have hex : ∀ j : Nat, (j : Int) < 2 →
      finalAnswer ((scripted [.ok .Pending, .ok .Pending]).getTransactionStatus
        "ref-collection" j) = false :=
    fun j hj => match j, hj with
      | 0, _ => rfl
      | 1, _ => rfl
      | n + 2, h => absurd h (by omega)
  obtain ⟨hloop, hflow, _⟩ :=
    pollLoop_exhausts_without_final (scripted [.ok .Pending, .ok .Pending]) 2 (5 * second)
      (by decide)
  obtain ⟨evs, h1, h2, _, _, h5, _⟩ := hloop .collection "ref-collection" World.init
    (fun j hj => by simpa [World.init, World.calls, Env.status] using hex j hj)
  obtain ⟨evs2, rest, h6, _⟩ := hflow "ref-collection" rfl rfl hex
  have ht : (pollLoop (scripted [.ok .Pending, .ok .Pending]) .collection "ref-collection" 2
      (5 * second) 2 World.init).trace = evs := by simpa [World.init] using h1
  rw [ht, h6]
  refine ⟨by exact_mod_cast h2, by rw [h5]; decide, ?_⟩
  simp [interlude]

theorem filterMap_range_const {α : Type} (f : Nat → Option α) (a : α) : ∀ (n : Nat),
    (∀ j, j < n → f j = some a) → (List.range n).filterMap f = List.replicate n a := by
  intro n
  induction n with
  | zero => intro _; rfl
  | succ n ih =>
    intro h
    rw [List.range_succ, List.filterMap_append, ih (fun j hj => h j (Nat.lt_succ_of_lt hj)),
      List.replicate_succ']
    simp [h n (Nat.lt_succ_self n)]

theorem napOf_of_not_final (pollInterval : Nat) (res : Except String Status)
    (h : finalAnswer res = false) : napOf pollInterval res = some pollInterval := by
  simp [napOf, h]

theorem sleeps_of_no_final (env : Env) (p : Product) (id : String) (maxPolls : Int)
    (pollInterval : Nat) (r c : Nat)
    (h : ∀ j, j < r → finalAnswer (env.status p id (c + j)) = false) :
    sleeps (loopEvents env p id maxPolls pollInterval r c) = List.replicate r pollInterval := by
  rw [sleeps_loopEvents, loopCalls_of_no_final env p id r c h]
  exact filterMap_range_const _ _ r (fun j hj => napOf_of_not_final _ _ (h j hj))

theorem sleeps_of_first_final (env : Env) (p : Product) (id : String) (maxPolls : Int)
    (pollInterval : Nat) (n r c : Nat) (hr : n < r)
    (h : ∀ j, j < n → finalAnswer (env.status p id (c + j)) = false)
    (hfin : finalAnswer (env.status p id (c + n)) = true) :
    sleeps (loopEvents env p id maxPolls pollInterval r c) = List.replicate n pollInterval := by
  rw [sleeps_loopEvents, loopCalls_of_first_final env p id n r c hr h hfin, List.range_succ,
    List.filterMap_append,
    filterMap_range_const _ _ n (fun j hj => napOf_of_not_final pollInterval _ (h j hj))]
  simp [napOf, hfin]

theorem length_filterMap_eq_countP {α β : Type} (f : α → Option β) (l : List α) :
    (l.filterMap f).length = l.countP (fun x => (f x).isSome) := by
  induction l with
  | nil => rfl
  | cons x l ih =>
    rw [List.filterMap_cons, List.countP_cons]
    cases h : f x <;> simp [ih]

/-- C7: in either polling loop, for every sequence of answers, the errors
carried by the loop's "Error checking status" (resp. "Error checking transfer
status") log lines are exactly the errors of the failed status queries the
loop issued, in order; in particular there are as many such lines as failed
queries. -/
theorem every_failed_poll_is_logged (env : Env) (p : Product) (id : String) (maxPolls : Int)
    (pollInterval : Nat) (w : World) :
    ∃ evs,
      (pollLoop env p id maxPolls pollInterval maxPolls.toNat w).trace = w.trace ++ evs ∧
      (pollLoop env p id maxPolls pollInterval maxPolls.toNat w).calls p =
        w.calls p + queryCount p evs ∧
      loggedErrors p evs =
        (List.range (queryCount p evs)).filterMap
          (fun j => failureOf (env.status p id (w.calls p + j))) ∧
      (loggedErrors p evs).length =
        (List.range (queryCount p evs)).countP
          (fun j => (failureOf (env.status p id (w.calls p + j))).isSome) := by
  have herr := loggedErrors_loopEvents env p id maxPolls pollInterval maxPolls.toNat (w.calls p)
  rw [← queryCount_loopEvents env p id maxPolls pollInterval] at herr
  refine ⟨loopEvents env p id maxPolls pollInterval maxPolls.toNat (w.calls p), ?_, ?_, herr, ?_⟩
  · rw [pollLoop_eq, World.advance_trace]
  · rw [pollLoop_eq, World.advance_calls_self, queryCount_loopEvents]
  · rw [herr, length_filterMap_eq_countP]


/-- C9: in either polling loop every attempt that does not observe a final
status is followed by exactly one sleep of `pollInterval`: the loop's sleeps
are one `pollInterval` per issued query whose answer is not final, in order.
Hence if the first final status comes at attempt `k` the loop sleeps exactly
`k - 1` times, and if `maxPolls ≥ 0` attempts are exhausted it sleeps exactly
`maxPolls` times, the last attempt included; with the program's constants
that is 6 sleeps of 5 s, 30 s in all. -/
theorem sleeps_follow_nonfinal_attempts (env : Env) (p : Product) (id : String)
    (maxPolls : Int) (pollInterval : Nat) (w : World) :
    ∃ evs,
      (pollLoop env p id maxPolls pollInterval maxPolls.toNat w).trace = w.trace ++ evs ∧
      sleeps evs =
        (List.range (queryCount p evs)).filterMap
          (fun j => napOf pollInterval (env.status p id (w.calls p + j))) ∧
      (∀ k : Nat, 1 ≤ k → (k : Int) ≤ maxPolls →
        (∀ j, j + 1 < k → finalAnswer (env.status p id (w.calls p + j)) = false) →
        finalAnswer (env.status p id (w.calls p + (k - 1))) = true →
        sleeps evs = List.replicate (k - 1) pollInterval) ∧
      (0 ≤ maxPolls →
        (∀ j : Nat, (j : Int) < maxPolls →
          finalAnswer (env.status p id (w.calls p + j)) = false) →
        sleeps evs = List.replicate maxPolls.toNat pollInterval ∧
          ((sleeps evs).length : Int) = maxPolls ∧
          (maxPolls = 6 → pollInterval = 5 * second →
            (sleeps evs).length = 6 ∧ (sleeps evs).sum = 30 * second)) := by
  have hs := sleeps_loopEvents env p id maxPolls pollInterval maxPolls.toNat (w.calls p)
  rw [← queryCount_loopEvents env p id maxPolls pollInterval] at hs
  refine ⟨loopEvents env p id maxPolls pollInterval maxPolls.toNat (w.calls p), ?_, hs, ?_, ?_⟩
  · rw [pollLoop_eq, World.advance_trace]
  · intro k hk hle hbefore hfin
    obtain ⟨n, rfl⟩ : ∃ n, k = n + 1 := ⟨k - 1, by omega⟩
    simp only [Nat.add_sub_cancel] at hfin ⊢
    exact sleeps_of_first_final env p id maxPolls pollInterval n maxPolls.toNat (w.calls p)
      (by push_cast at hle; omega) (fun j hj => hbefore j (by omega)) hfin
  · intro h0 hnone
    have hrep := sleeps_of_no_final env p id maxPolls pollInterval maxPolls.toNat (w.calls p)
      (fun j hj => hnone j (by omega))
    refine ⟨hrep, ?_, ?_⟩
    · rw [hrep, List.length_replicate]
      omega
    · intro h6 h5
      subst h6 h5
      rw [hrep]
      decide

/-- C9 on the program's own constants: six `Pending` answers make the
collection loop sleep 6 times 5 s; a `Successful` answer at the third attempt
makes it sleep twice. -/
theorem sleeps_follow_nonfinal_attempts_witness :
    sleeps (pollLoop (scripted []) .collection "ref-collection" 6 (5 * second) 6
        World.init).trace = List.replicate 6 (5 * second) ∧
      sleeps (pollLoop (scripted [.ok .Pending, .error "timeout", .ok .Successful]) .collection
        "ref-collection" 6 (5 * second) 6 World.init).trace = List.replicate 2 (5 * second) := by
  obtain ⟨evs, h1, _, _, h4⟩ :=
    sleeps_follow_nonfinal_attempts (scripted []) .collection "ref-collection" 6 (5 * second)
      World.init
  obtain ⟨evs2, h5, _, h7, _⟩ :=
    sleeps_follow_nonfinal_attempts (scripted [.ok .Pending, .error "timeout", .ok .Successful])
      .collection "ref-collection" 6 (5 * second) World.init
  have ht : (pollLoop (scripted []) .collection "ref-collection" 6 (5 * second) 6
      World.init).trace = evs := by simpa [World.init] using h1
  have ht2 : (pollLoop (scripted [.ok .Pending, .error "timeout", .ok .Successful]) .collection
      "ref-collection" 6 (5 * second) 6 World.init).trace = evs2 := by simpa [World.init] using h5
  rw [ht, ht2]
  refine ⟨(h4 (by decide) (fun j _ => rfl)).1, ?_⟩
  exact h7 3 (by decide) (by decide)
    (fun j hj => match j, hj with
      | 0, _ => rfl
      | 1, _ => rfl
      | n + 2, h => absurd h (by omega))
    rfl

/-- C3 fails on the code.  The context is cancelled after the first answer
(`Pending`), so every later query fails with the context's error; the
collection loop, with the program's constants, still issues all 6 queries (5 of
them after the cancellation, not at most one), sleeps after each of them, logs
the error 5 times and ends with a sleep like any exhausted loop: no
`log.Fatalf`, no event that tells cancellation from exhaustion. -/
theorem cancellation_counterexample :
    queryCount .collection
        (pollLoop cancelledAfterOne
          .collection "ref-collection" 6 (5 * second) 6 World.init).trace = 6 ∧
      ¬ queryCount .collection
        (pollLoop cancelledAfterOne
          .collection "ref-collection" 6 (5 * second) 6 World.init).trace ≤ 1 + 1 ∧
      sleeps
        (pollLoop cancelledAfterOne
          .collection "ref-collection" 6 (5 * second) 6 World.init).trace =
        List.replicate 6 (5 * second) ∧
      (pollLoop cancelledAfterOne
          .collection "ref-collection" 6 (5 * second) 6 World.init).trace.getLast? =
        some (.sleep (5 * second)) ∧
      (pollLoop cancelledAfterOne
          .collection "ref-collection" 6 (5 * second) 6 World.init).trace.all
        (fun e => !isFatal e) = true := by
  decide

theorem range_filterMap_tail {α : Type} (f : Nat → Option α) (a : α) (c : Nat) : ∀ (n : Nat),
    c ≤ n → (∀ j, c ≤ j → j < n → f j = some a) →
      (List.range n).filterMap f = (List.range c).filterMap f ++ List.replicate (n - c) a := by
  intro n hn h
  obtain ⟨d, rfl⟩ : ∃ d, n = c + d := ⟨n - c, by omega⟩
  rw [List.range_add, List.filterMap_append, List.filterMap_map, Nat.add_sub_cancel_left]
  congr 1
  rw [← filterMap_range_const (f ∘ fun x => c + x) a d
    (fun j hj => h (c + j) (Nat.le_add_right c j) (by omega))]

/-- C3 as amended: cancelling the context during polling, after `c ≤ maxPolls`
answers none of which was final, so that every later query fails with the
context's error `e`, does not stop the loop.  Every remaining attempt still
issues its query, logs `e` and sleeps one interval: the loop issues `maxPolls`
queries in all, sleeps `maxPolls` times, logs `e` once per attempt left, and
ends by exhaustion without any `log.Fatalf`. -/
theorem pollLoop_ignores_cancellation (env : Env) (p : Product) (id : String) (maxPolls : Int)
    (pollInterval : Nat) (w : World) (c : Nat) (e : String)
    (hc : (c : Int) ≤ maxPolls)
    (hbefore : ∀ j, j < c → finalAnswer (env.status p id (w.calls p + j)) = false)
    (hcancel : ∀ j : Nat, c ≤ j → (j : Int) < maxPolls →
      env.status p id (w.calls p + j) = .error e) :
    ∃ evs,
      (pollLoop env p id maxPolls pollInterval maxPolls.toNat w).trace = w.trace ++ evs ∧
      queryCount p evs = maxPolls.toNat ∧
      sleeps evs = List.replicate maxPolls.toNat pollInterval ∧
      loggedErrors p evs =
        (List.range c).filterMap (fun j => failureOf (env.status p id (w.calls p + j))) ++
          List.replicate (maxPolls.toNat - c) e ∧
      (∀ ev ∈ evs, isFatal ev = false) := by
  have hnone : ∀ j, j < maxPolls.toNat →
      finalAnswer (env.status p id (w.calls p + j)) = false := by
    intro j hlt
    by_cases hj : j < c
    · exact hbefore j hj
    · rw [hcancel j (by omega) (by omega)]
      rfl
  have hcalls := loopCalls_of_no_final env p id maxPolls.toNat (w.calls p) hnone
  refine ⟨loopEvents env p id maxPolls pollInterval maxPolls.toNat (w.calls p), ?_, ?_, ?_, ?_, ?_⟩
  · rw [pollLoop_eq, World.advance_trace]
  · rw [queryCount_loopEvents, hcalls]
  · exact sleeps_of_no_final env p id maxPolls pollInterval maxPolls.toNat (w.calls p) hnone
  · rw [loggedErrors_loopEvents, hcalls]
    exact range_filterMap_tail _ e c maxPolls.toNat (by omega)
      (fun j hj hlt => by rw [hcancel j hj (by omega)]; rfl)
  · intro ev hev
    exact isFatal_of_fromLoop p id ev (fromLoop_loopEvents env p id maxPolls pollInterval _ _ ev hev)

/-- C3 as amended, on the program's constants: cancelled after one `Pending`
answer, the collection loop issues all 6 queries and logs the context's error
5 times. -/
theorem pollLoop_ignores_cancellation_witness :
    queryCount .collection
        (pollLoop cancelledAfterOne .collection "ref-collection" 6 (5 * second) 6
          World.init).trace = 6 ∧
      loggedErrors .collection
        (pollLoop cancelledAfterOne .collection "ref-collection" 6 (5 * second) 6
          World.init).trace = List.replicate 5 "context canceled" := by
  obtain ⟨evs, h1, h2, _, h4, _⟩ :=
    pollLoop_ignores_cancellation cancelledAfterOne .collection "ref-collection" 6 (5 * second)
      World.init 1 "context canceled" (by decide)
      (fun j hj => match j, hj with
        | 0, _ => rfl
        | n + 1, h => absurd h (by omega))
      (fun j hj hlt => match j, hj, hlt with
        | 0, h, _ => absurd h (by omega)
        | 1, _, _ => rfl
        | 2, _, _ => rfl
        | 3, _, _ => rfl
        | 4, _, _ => rfl
        | 5, _, _ => rfl
        | n + 6, _, h => absurd h (by omega))
  have ht : (pollLoop cancelledAfterOne .collection "ref-collection" 6 (5 * second) 6
      World.init).trace = evs := by simpa [World.init] using h1
  rw [ht]
  exact ⟨h2, h4⟩

/-- C4: a failed status query never ends a polling loop.  If attempt `a`
(counted from 1, as in the program's "Polling attempt" lines) with
`a < maxPolls` is answered with an error `e`, and no earlier attempt observed a
final status, then the trace continues after that query with the error log,
one sleep of `pollInterval`, and the opening log and the query of attempt
`a + 1`; the loop goes on exactly as the loop with `maxPolls - a` attempts
left, so the error used up one attempt; and the loop causes no `log.Fatalf`. -/
theorem failed_query_does_not_end_loop (env : Env) (p : Product) (id : String)
    (maxPolls : Int) (pollInterval : Nat) (w : World) (a : Nat) (e : String)
    (ha : 1 ≤ a) (hlt : (a : Int) < maxPolls)
    (hbefore : ∀ j, j + 1 < a → finalAnswer (env.status p id (w.calls p + j)) = false)
    (herr : env.status p id (w.calls p + (a - 1)) = .error e) :
    ∃ pre post,
      (pollLoop env p id maxPolls pollInterval maxPolls.toNat w).trace =
        w.trace ++ pre ++
          [.getStatus p id, .log (errorFormat p) [.err e], .sleep pollInterval,
            attemptLog maxPolls a, .getStatus p id] ++ post ∧
      queryCount p pre = a - 1 ∧
      pollLoop env p id maxPolls pollInterval maxPolls.toNat w =
        pollLoop env p id maxPolls pollInterval (maxPolls.toNat - a)
          (w.advance p a
            (pre ++ [.getStatus p id, .log (errorFormat p) [.err e], .sleep pollInterval])) ∧
      (∀ ev ∈ pre ++ [.getStatus p id, .log (errorFormat p) [.err e], .sleep pollInterval,
          attemptLog maxPolls a, .getStatus p id] ++ post, isFatal ev = false) := by
  obtain ⟨n, rfl⟩ : ∃ n, a = n + 1 := ⟨a - 1, by omega⟩
  simp only [Nat.add_sub_cancel] at herr
  obtain ⟨m, hm⟩ : ∃ m, maxPolls.toNat = n + (m + 1 + 1) :=
    ⟨maxPolls.toNat - n - 2, by push_cast at hlt; omega⟩
  have hnf : finalAnswer (env.status p id (w.calls p + n)) = false := by rw [herr]; rfl
  obtain ⟨pre, hpre, hcount, hcalls⟩ := loopEvents_split env p id maxPolls pollInterval n
    (m + 1 + 1) (w.calls p) (fun j hj => hbefore j (by omega))
  have hidx : maxPolls - ((m + 1 : Nat) : Int) = ((n + 1 : Nat) : Int) := by
    push_cast at hlt ⊢
    omega
  have hrest : loopEvents env p id maxPolls pollInterval (m + 1) (w.calls p + n + 1) =
      [attemptLog maxPolls ((n + 1 : Nat) : Int), .getStatus p id] ++
        (answerEvents p pollInterval (env.status p id (w.calls p + n + 1)) ++
          if finalAnswer (env.status p id (w.calls p + n + 1)) then []
          else loopEvents env p id maxPolls pollInterval m (w.calls p + n + 1 + 1)) := by
    rw [loopEvents, hidx]
    simp
  have hstep : loopEvents env p id maxPolls pollInterval (m + 1 + 1) (w.calls p + n) =
      [attemptLog maxPolls (maxPolls - ((m + 1 + 1 : Nat) : Int)), .getStatus p id,
        .log (errorFormat p) [.err e], .sleep pollInterval] ++
        loopEvents env p id maxPolls pollInterval (m + 1) (w.calls p + n + 1) := by
    have hnf2 : finalAnswer (Except.error e : Except String Status) = false := rfl
    rw [loopEvents, herr]
    simp [answerEvents, hnf2]
  have hcstep : loopCalls env p id (m + 1 + 1) (w.calls p + n) =
      loopCalls env p id (m + 1) (w.calls p + n + 1) + 1 := by
    simp [loopCalls, hnf]
  have hall : loopEvents env p id maxPolls pollInterval maxPolls.toNat (w.calls p) =
      (pre ++ [attemptLog maxPolls (maxPolls - ((m + 1 + 1 : Nat) : Int))]) ++
        [.getStatus p id, .log (errorFormat p) [.err e], .sleep pollInterval] ++
        loopEvents env p id maxPolls pollInterval (m + 1) (w.calls p + n + 1) := by
    rw [hm, hpre, hstep]
    simp
  refine ⟨pre ++ [attemptLog maxPolls (maxPolls - ((m + 1 + 1 : Nat) : Int))],
    answerEvents p pollInterval (env.status p id (w.calls p + n + 1)) ++
      (if finalAnswer (env.status p id (w.calls p + n + 1)) then []
        else loopEvents env p id maxPolls pollInterval m (w.calls p + n + 1 + 1)), ?_, ?_, ?_, ?_⟩
  · rw [pollLoop_eq, World.advance_trace, hall, hrest]
    simp
  · simp [hcount]
  · have hleft : maxPolls.toNat - (n + 1) = m + 1 := by omega
    rw [pollLoop_eq, pollLoop_eq, hleft, World.advance_advance, World.advance_calls_self, hall,
      hm, hcalls, hcstep]
    congr 1
    simp only [Nat.add_assoc]
    omega
  · intro ev hev
    have hmem : ev ∈ loopEvents env p id maxPolls pollInterval maxPolls.toNat (w.calls p) := by
      rw [hall, hrest]
      simpa using hev
    exact isFatal_of_fromLoop p id ev
      (fromLoop_loopEvents env p id maxPolls pollInterval _ _ ev hmem)

/-- C4, the claim's example: with `maxPolls = 2` and the answers
`[error, Successful]` the failed first query of the collection loop is
followed by the error log, a sleep and the second attempt; the loop issues 2
queries and ends on `Successful`. -/
theorem failed_query_does_not_end_loop_witness :
    (∃ pre post,
      (pollLoop (scripted [.error "connection reset", .ok .Successful]) .collection
          "ref-collection" 2 (5 * second) 2 World.init).trace =
        pre ++
          [.getStatus .collection "ref-collection",
            .log "Error checking status: %v" [.err "connection reset"], .sleep (5 * second),
            .log "Polling attempt %d/%d..." [.int 2, .int 2],
            .getStatus .collection "ref-collection"] ++ post ∧
      queryCount .collection pre = 0) ∧
      queryCount .collection
        (pollLoop (scripted [.error "connection reset", .ok .Successful]) .collection
          "ref-collection" 2 (5 * second) 2 World.init).trace = 2 ∧
      lastObserved .collection
        (pollLoop (scripted [.error "connection reset", .ok .Successful]) .collection
          "ref-collection" 2 (5 * second) 2 World.init).trace = some .Successful := by
  obtain ⟨pre, post, h1, h2, _, _⟩ :=
    failed_query_does_not_end_loop (scripted [.error "connection reset", .ok .Successful])
      .collection "ref-collection" 2 (5 * second) World.init 1 "connection reset" (by decide)
      (by decide) (fun j hj => absurd hj (by omega)) rfl
  exact ⟨⟨pre, post, by simpa [World.init] using h1, h2⟩, by decide, by decide⟩

theorem getStatus_of_fromLoop (p q : Product) (id x : String)
    (h : fromLoop p id (.getStatus q x) = true) : q = p ∧ x = id := by
  simpa [fromLoop] using h


theorem filter_loopEvents_eq_nil (env : Env) (p : Product) (id : String) (maxPolls : Int)
    (pollInterval : Nat) (r c : Nat) (f : Event → Bool)
    (hf : ∀ e, fromLoop p id e = true → f e = false) :
    (loopEvents env p id maxPolls pollInterval r c).filter f = [] := by
  rw [List.filter_eq_nil_iff]
  intro e he
  simp [hf e (fromLoop_loopEvents env p id maxPolls pollInterval r c e he)]

theorem isRequestToPay_of_fromLoop (p : Product) (id : String) (e : Event)
    (h : fromLoop p id e = true) : isRequestToPay e = false := by
  cases e <;> simp_all [fromLoop, isRequestToPay]

theorem isTransfer_of_fromLoop (p : Product) (id : String) (e : Event)
    (h : fromLoop p id e = true) : isTransfer e = false := by
  cases e <;> simp_all [fromLoop, isTransfer]

/-! ## Claims about the run of `sandbox_payment/main.go` -/

/-- C5: for every number of attempts and every behaviour of the provider,
every status query in a run of `sandbox_payment/main.go` carries the id its
submission returned: a `GetTransactionStatus` call is given exactly the
`referenceID` returned by `RequestToPay`, a `GetTransferStatus` call exactly
the `transferReferenceID` returned by `Transfer`. -/
theorem status_queries_use_submission_id (maxPolls : Int) (pollInterval : Nat) (env : Env)
    (q : Product) (x : String)
    (h : Event.getStatus q x ∈ (paymentFlow maxPolls pollInterval env).trace) :
    (q = .collection → env.requestToPay phone 500 (payOptions env) = .ok x) ∧
      (q = .disbursement → env.transfer phone 250 (transferOptions env) = .ok x) := by
  cases hc : env.newConfig with
  | some e =>
    rw [paymentFlow_config_error maxPolls pollInterval env e hc] at h
    simp at h
  | none =>
    cases hr : env.requestToPay phone 500 (payOptions env) with
    | error e =>
      rw [paymentFlow_submit_error maxPolls pollInterval env e hc hr] at h
      simp at h
    | ok rid =>
      cases ht : env.transfer phone 250 (transferOptions env) with
      | error e =>
        rw [paymentFlow_transfer_error maxPolls pollInterval env rid e hc hr ht] at h
        simp only [prologue, interlude, List.mem_append, List.mem_cons, List.mem_singleton,
          List.not_mem_nil, or_false, reduceCtorEq, false_or] at h
        have := getStatus_of_fromLoop _ _ _ _
          (fromLoop_loopEvents env .collection rid maxPolls pollInterval _ _ _ h)
        obtain ⟨rfl, rfl⟩ := this
        simp
      | ok tid =>
        rw [paymentFlow_completed maxPolls pollInterval env rid tid hc hr ht] at h
        simp only [prologue, interlude, transferLogs, List.mem_append, List.mem_cons,
          List.mem_singleton, List.not_mem_nil, or_false, reduceCtorEq, false_or] at h
        rcases h with h | h
        · obtain ⟨rfl, rfl⟩ := getStatus_of_fromLoop _ _ _ _
            (fromLoop_loopEvents env .collection rid maxPolls pollInterval _ _ _ h)
          simp
        · obtain ⟨rfl, rfl⟩ := getStatus_of_fromLoop _ _ _ _
            (fromLoop_loopEvents env .disbursement tid maxPolls pollInterval _ _ _ h)
          simp

/-- C5 on a concrete run: the collection queries of the program carry the id
`RequestToPay` returned, the transfer queries the id `Transfer` returned. -/
theorem status_queries_use_submission_id_witness :
    (scripted [.ok .Pending, .ok .Successful]).requestToPay phone 500
        (payOptions (scripted [.ok .Pending, .ok .Successful])) = .ok "ref-collection" ∧
      (scripted [.ok .Pending, .ok .Successful]).transfer phone 250
        (transferOptions (scripted [.ok .Pending, .ok .Successful])) = .ok "ref-transfer" :=
  ⟨(status_queries_use_submission_id 6 (5 * second) (scripted [.ok .Pending, .ok .Successful])
      .collection "ref-collection" (by decide)).1 rfl,
    (status_queries_use_submission_id 6 (5 * second) (scripted [.ok .Pending, .ok .Successful])
      .disbursement "ref-transfer" (by decide)).2 rfl⟩

/-- C8 fails on the code as stated ("for every run"): when `NewConfig` returns
an error the program stops at its first `log.Fatalf`, and `RequestToPay` is
called zero times, not once. -/
theorem mutating_calls_counterexample :
    (SandboxPayment.main misconfigured).trace =
        [.newConfig, .fatal "Failed to create config: %v" [.err "subscription key is required"]] ∧
      (SandboxPayment.main misconfigured).outcome = .exited 1 ∧
      (SandboxPayment.main misconfigured).trace.countP isRequestToPay = 0 ∧
      ¬ (SandboxPayment.main misconfigured).trace.countP isRequestToPay = 1 := by
  decide

/-- C8 as amended: in every run of `sandbox_payment/main.go` in which
`NewConfig` succeeds, whatever the number of attempts and the polling results,
`RequestToPay` is called exactly once; `Transfer` is called exactly once if
`RequestToPay` succeeded and never if it failed. -/
theorem mutating_calls_once (maxPolls : Int) (pollInterval : Nat) (env : Env)
    (hc : env.newConfig = none) :
    (paymentFlow maxPolls pollInterval env).trace.filter isRequestToPay =
        [.requestToPay phone 500 (payOptions env)] ∧
      (∀ rid, env.requestToPay phone 500 (payOptions env) = .ok rid →
        (paymentFlow maxPolls pollInterval env).trace.filter isTransfer =
          [.transfer phone 250 (transferOptions env)]) ∧
      (∀ e, env.requestToPay phone 500 (payOptions env) = .error e →
        (paymentFlow maxPolls pollInterval env).trace.filter isTransfer = []) := by
  have hcol : ∀ rid, (loopEvents env .collection rid maxPolls pollInterval maxPolls.toNat
      0).filter isRequestToPay = [] := fun rid =>
    filter_loopEvents_eq_nil env .collection rid maxPolls pollInterval _ _ _
      (isRequestToPay_of_fromLoop .collection rid)
  have hdis : ∀ tid, (loopEvents env .disbursement tid maxPolls pollInterval maxPolls.toNat
      0).filter isRequestToPay = [] := fun tid =>
    filter_loopEvents_eq_nil env .disbursement tid maxPolls pollInterval _ _ _
      (isRequestToPay_of_fromLoop .disbursement tid)
  have hcol2 : ∀ rid, (loopEvents env .collection rid maxPolls pollInterval maxPolls.toNat
      0).filter isTransfer = [] := fun rid =>
    filter_loopEvents_eq_nil env .collection rid maxPolls pollInterval _ _ _
      (isTransfer_of_fromLoop .collection rid)
  have hdis2 : ∀ tid, (loopEvents env .disbursement tid maxPolls pollInterval maxPolls.toNat
      0).filter isTransfer = [] := fun tid =>
    filter_loopEvents_eq_nil env .disbursement tid maxPolls pollInterval _ _ _
      (isTransfer_of_fromLoop .disbursement tid)
  cases hr : env.requestToPay phone 500 (payOptions env) with
  | error e =>
    rw [paymentFlow_submit_error maxPolls pollInterval env e hc hr]
    simp [isRequestToPay, isTransfer]
  | ok rid =>
    cases ht : env.transfer phone 250 (transferOptions env) with
    | error e =>
      rw [paymentFlow_transfer_error maxPolls pollInterval env rid e hc hr ht]
      simp [List.filter_append, hcol, hcol2, prologue, interlude, isRequestToPay, isTransfer]
    | ok tid =>
      rw [paymentFlow_completed maxPolls pollInterval env rid tid hc hr ht]
      simp [List.filter_append, hcol, hcol2, hdis, hdis2, prologue, interlude, transferLogs,
        isRequestToPay, isTransfer]

/-- C8 as amended, on a concrete run of the program: the collection status
comes back `Failed` at the first poll, and `RequestToPay` and `Transfer` are
each called once. -/
theorem mutating_calls_once_witness :
    (SandboxPayment.main (scripted [.ok .Failed])).trace.countP isRequestToPay = 1 ∧
      (SandboxPayment.main (scripted [.ok .Failed])).trace.countP isTransfer = 1 ∧
      (paymentFlow 6 (5 * second) (scripted [.ok .Failed])).trace.filter isTransfer =
        [.transfer phone 250 (transferOptions (scripted [.ok .Failed]))] :=
  ⟨by decide, by decide,
    (mutating_calls_once 6 (5 * second) (scripted [.ok .Failed]) rfl).2.1 "ref-collection" rfl⟩

/-! ## The runs of `basic.go` -/

theorem basic_config_error (env : BasicEnv) (e : String) (hc : env.newConfig = some e) :
    Basic.main env = ⟨[.newConfig, .fatal "Failed to create config: %v" [.err e]], .exited 1⟩ := by
  simp [Basic.main, hc, fatalf, World.init, World.emit]

theorem basic_user_error (env : BasicEnv) (e : String) (hc : env.newConfig = none)
    (hu : env.createAPIUser = .error e) :
    Basic.main env =
      ⟨[.newConfig, .log "Testing authentication..." [], .createAPIUser,
          .fatal "Failed to create API user: %v" [.err e]], .exited 1⟩ := by
  simp [Basic.main, hc, hu, fatalf, World.init, World.emit]

theorem basic_key_error (env : BasicEnv) (u e : String) (hc : env.newConfig = none)
    (hu : env.createAPIUser = .ok u) (hk : env.createAPIKey u = .error e) :
    Basic.main env =
      ⟨[.newConfig, .log "Testing authentication..." [], .createAPIUser,
          .log "Created API user: %s" [.str u], .createAPIKey u,
          .fatal "Failed to create API key: %v" [.err e]], .exited 1⟩ := by
  simp [Basic.main, hc, hu, hk, fatalf, World.init, World.emit]

theorem basic_token_error (env : BasicEnv) (u k e : String) (hc : env.newConfig = none)
    (hu : env.createAPIUser = .ok u) (hk : env.createAPIKey u = .ok k)
    (ht : env.getAccessToken "collection" = .error e) :
    Basic.main env =
      ⟨[.newConfig, .log "Testing authentication..." [], .createAPIUser,
          .log "Created API user: %s" [.str u], .createAPIKey u,
          .log "Created API key: %s" [.str k], .getAccessToken "collection",
          .fatal "Failed to get access token: %v" [.err e]], .exited 1⟩ := by
  simp [Basic.main, hc, hu, hk, ht, fatalf, World.init, World.emit]

theorem basic_short_token (env : BasicEnv) (u k : String) (t : List UInt8)
    (hc : env.newConfig = none) (hu : env.createAPIUser = .ok u)
    (hk : env.createAPIKey u = .ok k) (ht : env.getAccessToken "collection" = .ok t)
    (hlen : t.length < 10) :
    Basic.main env =
      ⟨[.newConfig, .log "Testing authentication..." [], .createAPIUser,
          .log "Created API user: %s" [.str u], .createAPIKey u,
          .log "Created API key: %s" [.str k], .getAccessToken "collection", .cancel],
        .panicked "slice bounds out of range"⟩ := by
  have hs : sliceTo t 10 = none := by simp [sliceTo, hlen]
  simp [Basic.main, hc, hu, hk, ht, hs, World.init, World.emit]

theorem basic_success (env : BasicEnv) (u k : String) (t : List UInt8)
    (hc : env.newConfig = none) (hu : env.createAPIUser = .ok u)
    (hk : env.createAPIKey u = .ok k) (ht : env.getAccessToken "collection" = .ok t)
    (hlen : 10 ≤ t.length) :
    Basic.main env =
      ⟨[.newConfig, .log "Testing authentication..." [], .createAPIUser,
          .log "Created API user: %s" [.str u], .createAPIKey u,
          .log "Created API key: %s" [.str k], .getAccessToken "collection",
          .log "Got access token: %s" [.bytes (t.take 10 ++ dots)],
          .out "\nAuthentication successful!", .out "=========================",
          .out "\nBasic API connectivity test passed!", .cancel], .returned⟩ := by
  have hs : sliceTo t 10 = some (t.take 10) := by simp [sliceTo, hlen]
  simp [Basic.main, hc, hu, hk, ht, hs, World.init, World.emit]

/-! ## Claims about `basic.go` -/

/-- C6: the credential bootstrap of `basic.go` fails fast, read off the
trace of the run.  The credential calls recorded in a run are, in order, a
beginning of `CreateAPIUser`, `CreateAPIKey(apiUser)`,
`GetAccessToken("collection")`, each at most once, where `apiUser` is exactly
what `CreateAPIUser` returned.  The calls made are determined by the first
step that fails: none when `NewConfig` fails, only `CreateAPIUser` when it
fails, the first two when `CreateAPIKey` fails, all three when
`GetAccessToken` fails, and in each of these cases the run ends with
`log.Fatalf` (exit code 1) without the success line.  "Authentication
successful!" is in the trace only when all three calls were made, in that
order, each answered without error, and it comes after them, exactly once. -/
theorem bootstrap_fails_fast (env : BasicEnv) :
    ((Basic.main env).trace.filter isAuthCall = [] ∨
      (Basic.main env).trace.filter isAuthCall = [.createAPIUser] ∨
      ∃ u, env.createAPIUser = .ok u ∧
        ((Basic.main env).trace.filter isAuthCall = [.createAPIUser, .createAPIKey u] ∨
          (Basic.main env).trace.filter isAuthCall =
            [.createAPIUser, .createAPIKey u, .getAccessToken "collection"])) ∧
      (∀ e, env.newConfig = some e →
        (Basic.main env).outcome = .exited 1 ∧
          (Basic.main env).trace.filter isMilestone = []) ∧
      (env.newConfig = none → ∀ e, env.createAPIUser = .error e →
        (Basic.main env).outcome = .exited 1 ∧
          (Basic.main env).trace.filter isMilestone = [.createAPIUser]) ∧
      (env.newConfig = none → ∀ u e, env.createAPIUser = .ok u →
        env.createAPIKey u = .error e →
        (Basic.main env).outcome = .exited 1 ∧
          (Basic.main env).trace.filter isMilestone = [.createAPIUser, .createAPIKey u]) ∧
      (env.newConfig = none → ∀ u k e, env.createAPIUser = .ok u →
        env.createAPIKey u = .ok k → env.getAccessToken "collection" = .error e →
        (Basic.main env).outcome = .exited 1 ∧
          (Basic.main env).trace.filter isMilestone =
            [.createAPIUser, .createAPIKey u, .getAccessToken "collection"]) ∧
      (env.newConfig = none → ∀ u k t, env.createAPIUser = .ok u →
        env.createAPIKey u = .ok k → env.getAccessToken "collection" = .ok t →
        (Basic.main env).trace.filter isAuthCall =
            [.createAPIUser, .createAPIKey u, .getAccessToken "collection"] ∧
          (10 ≤ t.length →
            (Basic.main env).outcome = .returned ∧
              (Basic.main env).trace.filter isMilestone =
                [.createAPIUser, .createAPIKey u, .getAccessToken "collection",
                  .out "\nAuthentication successful!"]) ∧
          (t.length < 10 →
            (Basic.main env).trace.filter isMilestone =
              [.createAPIUser, .createAPIKey u, .getAccessToken "collection"])) ∧
      (Event.out "\nAuthentication successful!" ∈ (Basic.main env).trace →
        ∃ u k t, env.newConfig = none ∧ env.createAPIUser = .ok u ∧
          env.createAPIKey u = .ok k ∧ env.getAccessToken "collection" = .ok t ∧
          (Basic.main env).trace.filter isMilestone =
            [.createAPIUser, .createAPIKey u, .getAccessToken "collection",
              .out "\nAuthentication successful!"]) := by
  cases hc : env.newConfig with
  | some e0 =>
    rw [basic_config_error env e0 hc]
    simp [isAuthCall, isMilestone]
  | none =>
    cases hu : env.createAPIUser with
    | error e1 =>
      rw [basic_user_error env e1 hc hu]
      simp [isAuthCall, isMilestone]
    | ok u =>
      cases hk : env.createAPIKey u with
      | error e2 =>
        rw [basic_key_error env u e2 hc hu hk]
        refine ⟨?_, ?_, ?_, ?_, ?_, ?_, ?_⟩
        · simp [isAuthCall]
        · simp
        · simp
        · intro _ u1 e h1 _
          cases h1
          simp [isMilestone]
        · intro _ u1 k1 e h1 h2
          cases h1
          rw [hk] at h2
          cases h2
        · intro _ u1 k1 t1 h1 h2
          cases h1
          rw [hk] at h2
          cases h2
        · simp
      | ok k =>
        cases ht : env.getAccessToken "collection" with
        | error e3 =>
          rw [basic_token_error env u k e3 hc hu hk ht]
          refine ⟨?_, ?_, ?_, ?_, ?_, ?_, ?_⟩
          · simp [isAuthCall]
          · simp
          · simp
          · intro _ u1 e h1 h2
            cases h1
            rw [hk] at h2
            cases h2
          · intro _ u1 k1 e h1 _ _
            cases h1
            simp [isMilestone]
          · intro _ u1 k1 t1 _ _ h3
            cases h3
          · simp
        | ok t =>
          by_cases hlen : 10 ≤ t.length
          · rw [basic_success env u k t hc hu hk ht hlen]
            refine ⟨?_, ?_, ?_, ?_, ?_, ?_, ?_⟩
            · simp [isAuthCall]
            · simp
            · simp
            · intro _ u1 e h1 h2
              cases h1
              rw [hk] at h2
              cases h2
            · intro _ u1 k1 e _ _ h3
              cases h3
            · intro _ u1 k1 t1 h1 _ h3
              cases h1
              cases h3
              exact ⟨by simp [isAuthCall], fun _ => ⟨rfl, by simp [isMilestone]⟩,
                fun h => absurd hlen (by omega)⟩
            · intro _
              exact ⟨u, k, t, rfl, rfl, hk, rfl, by simp [isMilestone]⟩
          · rw [basic_short_token env u k t hc hu hk ht (by omega)]
            refine ⟨?_, ?_, ?_, ?_, ?_, ?_, ?_⟩
            · simp [isAuthCall]
            · simp
            · simp
            · intro _ u1 e h1 h2
              cases h1
              rw [hk] at h2
              cases h2
            · intro _ u1 k1 e _ _ h3
              cases h3
            · intro _ u1 k1 t1 h1 _ h3
              cases h1
              cases h3
              exact ⟨by simp [isAuthCall], fun h => absurd h hlen, fun _ => by simp [isMilestone]⟩
            · simp

/-- C6 on concrete runs: with a 12-byte token the success line is printed
after the three credential calls, each made once and in order; when
`CreateAPIUser` fails, that call is the only one made and the run exits with
code 1. -/
theorem bootstrap_fails_fast_witness :
    (∃ u k t,
      (basicWith [65, 66, 67, 68, 69, 70, 71, 72, 73, 74, 75, 76]).newConfig = none ∧
        (basicWith [65, 66, 67, 68, 69, 70, 71, 72, 73, 74, 75, 76]).createAPIUser = .ok u ∧
        (basicWith [65, 66, 67, 68, 69, 70, 71, 72, 73, 74, 75, 76]).createAPIKey u = .ok k ∧
        (basicWith [65, 66, 67, 68, 69, 70, 71, 72, 73, 74, 75, 76]).getAccessToken
          "collection" = .ok t ∧
        (Basic.main (basicWith [65, 66, 67, 68, 69, 70, 71, 72, 73, 74, 75, 76])).trace.filter
            isMilestone =
          [.createAPIUser, .createAPIKey u, .getAccessToken "collection",
            .out "\nAuthentication successful!"]) ∧
      ((Basic.main userRejected).outcome = .exited 1 ∧
        (Basic.main userRejected).trace.filter isMilestone = [.createAPIUser]) :=
  ⟨(bootstrap_fails_fast
      (basicWith [65, 66, 67, 68, 69, 70, 71, 72, 73, 74, 75, 76])).2.2.2.2.2.2 (by decide),
    (bootstrap_fails_fast userRejected).2.2.1 rfl "subscription key rejected" rfl⟩

/-- C10: when all three steps of `basic.go` succeed, the preview
`token[:10] + "..."` is defined exactly when the token has at least 10 bytes.
For such a token the logged preview is its first 10 bytes followed by "..."
and the run goes on to print "Authentication successful!" and return; for a
shorter token (the empty one included) the slice is out of range, the run
panics, and neither the preview nor "Authentication successful!" is
written. -/
theorem token_preview (env : BasicEnv) (u k : String) (token : List UInt8)
    (hc : env.newConfig = none) (hu : env.createAPIUser = .ok u)
    (hk : env.createAPIKey u = .ok k) (ht : env.getAccessToken "collection" = .ok token) :
    (10 ≤ token.length →
      (Basic.main env).trace.filter isPreviewLog =
          [.log "Got access token: %s" [.bytes (token.take 10 ++ dots)]] ∧
        (token.take 10).length = 10 ∧
        Event.out "\nAuthentication successful!" ∈ (Basic.main env).trace ∧
        (Basic.main env).outcome = .returned) ∧
      (token.length < 10 →
        (Basic.main env).outcome = .panicked "slice bounds out of range" ∧
          (Basic.main env).trace.filter isPreviewLog = [] ∧
          Event.out "\nAuthentication successful!" ∉ (Basic.main env).trace) := by
  constructor
  · intro hlen
    have hs : sliceTo token 10 = some (token.take 10) := by simp [sliceTo, hlen]
    simp [Basic.main, hc, hu, hk, ht, hs, World.init, World.emit, hlen, isPreviewLog]
  · intro hlen
    have hs : sliceTo token 10 = none := by simp [sliceTo, hlen]
    simp [Basic.main, hc, hu, hk, ht, hs, World.init, World.emit, isPreviewLog]

/-- C10 on concrete tokens: a 12-byte token is previewed by its first 10
bytes and "..."; the empty token makes the run panic. -/
theorem token_preview_witness :
    Event.log "Got access token: %s" [.bytes [65, 66, 67, 68, 69, 70, 71, 72, 73, 74, 46, 46, 46]] ∈
        (Basic.main (basicWith [65, 66, 67, 68, 69, 70, 71, 72, 73, 74, 75, 76])).trace ∧
      (Basic.main (basicWith [])).outcome = .panicked "slice bounds out of range" := by
  have h1 := (token_preview (basicWith [65, 66, 67, 68, 69, 70, 71, 72, 73, 74, 75, 76])
    "user-1" "key-1" [65, 66, 67, 68, 69, 70, 71, 72, 73, 74, 75, 76] rfl rfl rfl rfl).1
    (by decide)
  have h2 := (token_preview (basicWith []) "user-1" "key-1" [] rfl rfl rfl rfl).2 (by decide)
  refine ⟨?_, h2.1⟩
  have hmem : Event.log "Got access token: %s"
      [.bytes (List.take 10 [65, 66, 67, 68, 69, 70, 71, 72, 73, 74, 75, 76] ++ dots)] ∈
      (Basic.main (basicWith [65, 66, 67, 68, 69, 70, 71, 72, 73, 74, 75, 76])).trace.filter
        isPreviewLog := by
    rw [h1.1]
    exact List.mem_singleton.mpr rfl
  exact (List.mem_filter.mp hmem).1

end Momo
